import Mathlib

/-!
# North Med Diagnostics — inventory core, shallow embedding

A shallow embedding of `src/script.js` (Date/Expiry Classifier, Domain Model &
Validator, Query Engine, Persistence Gateway) together with theorems settling
the frozen claims about it.

Conventions of the embedding:
* JavaScript runtime values that flow through the inventory code are modelled
  by `JSVal` (strings, finite numbers as `Int`, `NaN`, `null`, `undefined`).
  Quantities in this app are integers, so finite numbers are `Int`.
* Text fields of items/payloads are modelled as `String`, with `""` standing
  for the absent/empty (falsy) value, matching how the code only ever tests
  them for truthiness or compares them to other strings.
* `new Date(s)` and `new Date()` are host facilities; they are modelled by a
  `DateEnv` providing the parser and "today".  A parsed `JSDate` carries its
  timestamp (`getTime()`) and its timestamp after `setHours(0,0,0,0)`.
* The remote row store (Supabase) is modelled by a `Backend` state holding the
  rows plus error flags for the select/upsert/delete calls; the async calls
  become state-passing functions.
-/

namespace NorthMed

/-- JavaScript values relevant to this program: strings, (integer-valued)
numbers, `NaN`, `null` and `undefined`. -/
inductive JSVal where
  | str (s : String)
  | num (n : Int)
  | nan
  | null
  | undefined
deriving DecidableEq, Repr

/-- ASCII whitespace, for the string-trimming done by JS `ToNumber`. -/
def isWs (c : Char) : Bool := c = ' ' || c = '\t' || c = '\n' || c = '\r'

/-- Trim leading and trailing whitespace from a character list. -/
def trimChars (cs : List Char) : List Char :=
  ((cs.dropWhile isWs).reverse.dropWhile isWs).reverse

/-- Accumulate decimal digits; `none` on the first non-digit character. -/
def decDigitsAux : List Char → Nat → Option Nat
  | [], acc => some acc
  | c :: t, acc =>
    if c.isDigit then decDigitsAux t (10 * acc + (c.toNat - 48)) else none

/-- A non-empty all-digit character list as a natural number. -/
def decDigits : List Char → Option Nat
  | [] => none
  | cs => decDigitsAux cs 0

/-- Optionally signed decimal integer literal. -/
def parseIntChars : List Char → Option Int
  | '-' :: rest => (decDigits rest).map (fun n => -(n : Int))
  | '+' :: rest => (decDigits rest).map (fun n => (n : Int))
  | cs => (decDigits cs).map (fun n => (n : Int))

/-- JS `ToNumber` on a string, for the integer-literal strings this app deals
in: whitespace is trimmed, the empty string is `0`, an optionally signed run
of digits is its value, anything else is `NaN` (`none`). -/
def jsStrToNum (s : String) : Option Int :=
  match trimChars s.toList with
  | [] => some 0
  | cs => parseIntChars cs

/-- JS `ToNumber` as a partial map into the integers; `none` means `NaN`. -/
def jsToNumOpt : JSVal → Option Int
  | .str s => jsStrToNum s
  | .num n => some n
  | .nan => none
  | .null => some 0
  | .undefined => none

/-- The JS `Number(x)` coercion: always yields a value of number type
(a finite number or `NaN`). -/
def jsNumber (v : JSVal) : JSVal :=
  match jsToNumOpt v with
  | some n => .num n
  | none => .nan

/-- Is the value `null` or `undefined` (the two nullish values, i.e. the
values loosely equal to `null` and absorbed by `??`)? -/
def nullish : JSVal → Bool
  | .null => true
  | .undefined => true
  | _ => false

/-- `Number(v ?? 0)` — the quantity coercion used throughout the source. -/
def numOrZero (v : JSVal) : JSVal :=
  jsNumber (if nullish v then .num 0 else v)

/-- Is the value of JS number type (a finite number or `NaN`)? -/
def isNumberType : JSVal → Bool
  | .num _ => true
  | .nan => true
  | _ => false

/-- JS `v <= k` against a number literal: `ToNumber` the left side, false on
`NaN`. -/
def jsLe (v : JSVal) (k : Int) : Bool :=
  match jsToNumOpt v with
  | some n => n ≤ k
  | none => false

/-- JS `v < 0`: `ToNumber` the left side, false on `NaN`. -/
def jsLtZero (v : JSVal) : Bool :=
  match jsToNumOpt v with
  | some n => n < 0
  | none => false

/-- JS strict equality `===` on the values that reach the sort comparator:
`NaN` equals nothing (itself included); otherwise values of different type
differ and values of the same type compare structurally. -/
def jsStrictEq : JSVal → JSVal → Bool
  | .nan, _ => false
  | _, .nan => false
  | a, b => a == b

/-- JS `a > b`: string/string compares lexicographically, any other pair goes
through `ToNumber` with `NaN` making the comparison false. -/
def jsGt : JSVal → JSVal → Bool
  | .str s, .str t => decide (t < s)
  | a, b =>
    match jsToNumOpt a, jsToNumOpt b with
    | some x, some y => decide (y < x)
    | _, _ => false

/-- Does `q` occur at the start of `h`? (`String.prototype.startsWith` on
character lists; auxiliary for substring search.) -/
def leadsWith : List Char → List Char → Bool
  | [], _ => true
  | _ :: _, [] => false
  | a :: as, b :: bs => a = b && leadsWith as bs

/-- Does `q` occur somewhere in `h`? (`String.prototype.includes` on
character lists.) -/
def listIncludes (q : List Char) : List Char → Bool
  | [] => q.isEmpty
  | c :: t => leadsWith q (c :: t) || listIncludes q t

/-- `h.includes(q)` — substring containment. -/
def strIncludes (h q : String) : Bool := listIncludes q.toList h.toList

/-- `s.toLowerCase()` for the ASCII text this app handles. -/
def strLower (s : String) : String := String.mk (s.toList.map Char.toLower)

/-- JS `a || b` on strings: `a` unless it is the empty (falsy) string. -/
def strOr (a b : String) : String := if a = "" then b else a

/-- `row.f || ''` where `row.f` may be SQL `null`: empty string for `null`,
otherwise the string itself (an empty string is falsy and also gives `''`). -/
def orEmpty : Option String → String
  | some s => s
  | none => ""

/-- `item.f || null`: empty (falsy) strings are stored as `null`. -/
def orNull (s : String) : Option String := if s = "" then none else some s

/-- `row.f || d` where `row.f` may be SQL `null`. -/
def optOr (o : Option String) (d : String) : String := strOr (orEmpty o) d

/-!
## Date/Expiry Classifier (`DateUtils`)
-/

/-- A JS `Date`: its timestamp `getTime()` in milliseconds, and the timestamp
it has after `setHours(0,0,0,0)` (local midnight of the same calendar day). -/
structure JSDate where
  time : Int
  midnight : Int
deriving DecidableEq, Repr

/-- The host's date facilities: `parse` models `new Date(s)` (returning
`none` exactly when the resulting date is invalid, i.e. `getTime()` is
`NaN`), and `today` models `new Date()`. -/
structure DateEnv where
  parse : String → Option JSDate
  today : JSDate

/-- Milliseconds per day. -/
def msPerDay : Int := 24 * 60 * 60 * 1000

/-- JS `Math.round(x / d)` for a positive divisor `d`: round half toward
positive infinity, i.e. the floor of `x/d + 1/2`. -/
def jsRoundDiv (x d : Int) : Int := Int.fdiv (2 * x + d) (2 * d)

namespace DateUtils

/-- `DateUtils.parse`: `null` on a falsy (empty) string, else `new Date(s)`
with invalid dates mapped to `null`. -/
def parse (env : DateEnv) (dateStr : String) : Option JSDate :=
  if dateStr = "" then none else env.parse dateStr

/-- The whole-day difference of two present dates: both truncated to local
midnight, divided by a day in milliseconds, and rounded (`Math.round`). -/
def daysBetweenD (a b : JSDate) : Int :=
  jsRoundDiv (b.midnight - a.midnight) msPerDay

/-- `DateUtils.daysBetween`: `null` when either date is missing. -/
def daysBetween : Option JSDate → Option JSDate → Option Int
  | some a, some b => some (daysBetweenD a b)
  | _, _ => none

/-- The record returned by `classifyExpiry`. -/
structure ExpInfo where
  label : String
  code : String
  days : Option Int
deriving DecidableEq, Repr

/-- `DateUtils.classifyExpiry`: bucket a date string against today.  Both
arguments of the day difference are present here (`today` always, `expiry` by
the guard), so the source's `daysBetween` call is the `daysBetweenD` core. -/
def classifyExpiry (env : DateEnv) (expiryDateStr : String) : ExpInfo :=
  match parse env expiryDateStr with
  | none => ⟨"No Expiry", "none", none⟩
  | some expiry =>
    let daysDiff := daysBetweenD env.today expiry
    if daysDiff < 0 then
      ⟨"Expired", "expired", some daysDiff⟩
    else if daysDiff ≤ 90 then
      ⟨"Expiring in " ++ toString daysDiff ++ " day" ++
        (if daysDiff = 1 then "" else "s"), "warning", some daysDiff⟩
    else
      ⟨"Valid (" ++ toString daysDiff ++ " day" ++
        (if daysDiff = 1 then "" else "s") ++ " left)", "good", some daysDiff⟩

end DateUtils

/-!
## Domain model
-/

/-- The Item entity.  Text fields are strings (`""` for absent/empty); the
quantity is whatever JS value the call site put there (`createItem` and the
row mapping always store a number there, but `validate` may be handed raw
objects). -/
structure Item where
  id : String
  category : String
  itemName : String
  brand : String
  contentVolume : String
  lotNumber : String
  dateReceived : String
  expiryDate : String
  dateOpened : String
  status : String
  quantity : JSVal
  remarks : String
deriving DecidableEq, Repr

/-- A backend row of the `inventory_items` table: optional text columns are
`Option String` with `none` for SQL `null`. -/
structure Row where
  id : String
  category : Option String
  item_name : String
  brand : Option String
  content_volume : Option String
  lot_number : Option String
  date_received : Option String
  expiry_date : Option String
  date_opened : Option String
  status : Option String
  quantity : JSVal
  remarks : Option String
deriving DecidableEq, Repr

/-!
## Persistence Gateway (`InventoryRepository`)
-/

namespace InventoryRepository

/-- `mapRowToItem` (on a present row): empty-string defaults for the optional
text columns, `'Unopened'` for a missing/empty status, `Number(q ?? 0)` for
the quantity. -/
def mapRowToItem (row : Row) : Item :=
  { id := row.id
    category := orEmpty row.category
    itemName := row.item_name
    brand := orEmpty row.brand
    contentVolume := orEmpty row.content_volume
    lotNumber := orEmpty row.lot_number
    dateReceived := orEmpty row.date_received
    expiryDate := orEmpty row.expiry_date
    dateOpened := orEmpty row.date_opened
    status := optOr row.status "Unopened"
    quantity := numOrZero row.quantity
    remarks := orEmpty row.remarks }

/-- `mapItemToRow`: empty (falsy) text fields become `null`, except `status`
(defaulted to `'Unopened'`) and `quantity` (always `Number(q ?? 0)`). -/
def mapItemToRow (item : Item) : Row :=
  { id := item.id
    category := orNull item.category
    item_name := item.itemName
    brand := orNull item.brand
    content_volume := orNull item.contentVolume
    lot_number := orNull item.lotNumber
    date_received := orNull item.dateReceived
    expiry_date := orNull item.expiryDate
    date_opened := orNull item.dateOpened
    status := some (strOr item.status "Unopened")
    quantity := numOrZero item.quantity
    remarks := orNull item.remarks }

/-- The state of the remote store as this client can observe it: the rows it
holds, whether the ambient client object is missing, and whether the next
select / upsert / delete call errors (rejection and thrown exception coincide
in the source: both are logged and otherwise ignored). -/
structure Backend where
  clientMissing : Bool
  loadError : Bool
  upsertError : Bool
  deleteError : Bool
  rows : List Row
deriving DecidableEq, Repr

/-- `load()`: empty list when the client is missing or the select fails,
otherwise every row mapped to an Item.  (The select's `order by expiry_date`
is performed by the remote collaborator; the rows are modelled as arriving in
the store's order.) -/
def load (b : Backend) : List Item :=
  if b.clientMissing then []
  else if b.loadError then []
  else b.rows.map mapRowToItem

/-- Insert-or-replace a row by primary key `id`. -/
def upsertRows (rows : List Row) (row : Row) : List Row :=
  if rows.any (fun r => r.id = row.id) then
    rows.map (fun r => if r.id = row.id then row else r)
  else rows ++ [row]

/-- `upsert(item)`: write the mapped row unless the write errors (in which
case the store is unchanged), then always return a fresh `load()`.  Returns
the refreshed item list together with the post-call backend state. -/
def upsert (b : Backend) (item : Item) : List Item × Backend :=
  if b.clientMissing then ([], b)
  else
    let b' :=
      if b.upsertError then b
      else { b with rows := upsertRows b.rows (mapItemToRow item) }
    (load b', b')

/-- `remove(id)`: delete the matching row unless the delete errors, then
return the updated `load()` together with the post-call backend state. -/
def remove (b : Backend) (id : String) : List Item × Backend :=
  if b.clientMissing then ([], b)
  else
    let b' :=
      if b.deleteError then b
      else { b with rows := b.rows.filter (fun r => r.id ≠ id) }
    (load b', b')

end InventoryRepository

/-!
## Service layer (`InventoryService`)
-/

/-- The raw payload handed to `createItem`; same shape as an Item.  The id is
`""` when the payload carries none. -/
structure Payload where
  id : String
  category : String
  itemName : String
  brand : String
  contentVolume : String
  lotNumber : String
  dateReceived : String
  expiryDate : String
  dateOpened : String
  status : String
  quantity : JSVal
  remarks : String
deriving DecidableEq, Repr

/-- The filter criteria record; each criterion is `""` when unset. -/
structure Filters where
  search : String
  category : String
  status : String
  expiry : String
  lowStock : String
deriving DecidableEq, Repr

/-- The `Filters` record with every criterion unset. -/
def Filters.unset : Filters := ⟨"", "", "", "", ""⟩

/-- The alert tallies returned by `computeAlerts`. -/
structure Alerts where
  expSoon : Nat
  expired : Nat
  outOfStock : Nat
  zeroQty : Nat
deriving DecidableEq, Repr

namespace InventoryService

/-- `createItem(payload)`: defaults for every optional field, generated id
when the payload has none (the `itm-...` time-and-random id is the host's;
it is passed in as `freshId`), `Number(quantity ?? 0)` for the quantity. -/
def createItem (freshId : String) (p : Payload) : Item :=
  { id := strOr p.id freshId
    category := p.category
    itemName := p.itemName
    brand := strOr p.brand ""
    contentVolume := strOr p.contentVolume ""
    lotNumber := strOr p.lotNumber ""
    dateReceived := strOr p.dateReceived ""
    expiryDate := strOr p.expiryDate ""
    dateOpened := strOr p.dateOpened ""
    status := strOr p.status "Unopened"
    quantity := numOrZero p.quantity
    remarks := strOr p.remarks "" }

/-- `validate(item)`: pushes, in order, the category / itemName / expiryDate
presence errors, then `Quantity must be a number` when the quantity is loosely
equal to `null` or is `NaN` (`Number.isNaN`, which does not coerce), then
`Quantity cannot be negative` when `quantity < 0`. -/
def validate (item : Item) : List String :=
  (if item.category = "" then ["Category is required"] else []) ++
  (if item.itemName = "" then ["Item Name is required"] else []) ++
  (if item.expiryDate = "" then ["Expiry Date is required"] else []) ++
  (if nullish item.quantity || item.quantity = JSVal.nan then
    ["Quantity must be a number"] else []) ++
  (if jsLtZero item.quantity then ["Quantity cannot be negative"] else [])

/-- The searchable text of an item: the non-empty ones among
category/itemName/brand/contentVolume/lotNumber/remarks joined by spaces. -/
def haystack (i : Item) : String :=
  String.intercalate " "
    (([i.category, i.itemName, i.brand, i.contentVolume, i.lotNumber,
       i.remarks]).filter (fun s => s ≠ ""))

/-- The predicate of `filter`'s callback: the sequence of early-`false`
checks of the source (the source binds `expInfo` once before the three
expiry checks; it is inlined here). -/
def filterPred (env : DateEnv) (f : Filters) (i : Item) : Bool :=
  if f.category ≠ "" ∧ i.category ≠ f.category then false
  else if f.status ≠ "" ∧ i.status ≠ f.status then false
  else if f.search ≠ "" ∧
      ¬ strIncludes (strLower (haystack i)) (strLower f.search) = true then
    false
  else if f.expiry = "expired" ∧
      (DateUtils.classifyExpiry env i.expiryDate).code ≠ "expired" then false
  else if f.expiry = "3months" ∧
      (DateUtils.classifyExpiry env i.expiryDate).code ≠ "warning" then false
  else if f.expiry = "good" ∧
      (DateUtils.classifyExpiry env i.expiryDate).code ≠ "good" then false
  else if f.lowStock = "low" ∧ ¬ jsLe i.quantity 2 = true then false
  else true

/-- `InventoryService.filter`. -/
def filter (env : DateEnv) (items : List Item) (f : Filters) : List Item :=
  items.filter (filterPred env f)

/-- `a[sortField]` — dynamic field access on an Item; `undefined` for any
name that is not a field. -/
def getField (i : Item) (f : String) : JSVal :=
  if f = "id" then .str i.id
  else if f = "category" then .str i.category
  else if f = "itemName" then .str i.itemName
  else if f = "brand" then .str i.brand
  else if f = "contentVolume" then .str i.contentVolume
  else if f = "lotNumber" then .str i.lotNumber
  else if f = "dateReceived" then .str i.dateReceived
  else if f = "expiryDate" then .str i.expiryDate
  else if f = "dateOpened" then .str i.dateOpened
  else if f = "status" then .str i.status
  else if f = "quantity" then i.quantity
  else if f = "remarks" then .str i.remarks
  else .undefined

/-- The time key used for date-named fields: `DateUtils.parse` on the string
value, `getTime()` of the result, `0` when the parse gives `null` (a
non-string value is not a parseable date string either). -/
def dateKey (env : DateEnv) (v : JSVal) : Int :=
  match v with
  | .str s =>
    match DateUtils.parse env s with
    | some d => d.time
    | none => 0
  | _ => 0

/-- `s.toLowerCase()` applied only when the value is a string, as the
comparator does via `typeof av === 'string'`. -/
def lowerIfStr : JSVal → JSVal
  | .str s => .str (strLower s)
  | v => v

/-- The sort comparator: quantity is numified, date-named fields compare by
timestamp with missing dates at the epoch, everything else compares with
`===` / `>` after lowercasing strings; `dir` flips the sense. -/
def sortCmp (env : DateEnv) (sortField : String) (dir : Int) (a b : Item) :
    Int :=
  let av0 := getField a sortField
  let bv0 := getField b sortField
  let av := if sortField = "quantity" then numOrZero av0 else av0
  let bv := if sortField = "quantity" then numOrZero bv0 else bv0
  if strIncludes (strLower sortField) "date" then
    let ak := dateKey env av
    let bk := dateKey env bv
    if ak = bk then 0 else if ak > bk then dir else -dir
  else
    let av := lowerIfStr av
    let bv := lowerIfStr bv
    if jsStrictEq av bv then 0 else if jsGt av bv then dir else -dir

/-- Stable insertion of `x` after every already-placed element `y` with
`le y x`. -/
def insertLe (le : Item → Item → Bool) (x : Item) : List Item → List Item
  | [] => [x]
  | y :: t => if le y x then y :: insertLe le x t else x :: y :: t

/-- Stable sort by a total boolean preorder (insertion sort): models the
result of ES2019+ `Array.prototype.sort`, which is specified to be stable,
for the consistent comparators this program uses. -/
def stableSort (le : Item → Item → Bool) (items : List Item) : List Item :=
  items.foldl (fun acc x => insertLe le x acc) []

/-- `InventoryService.sort`: a shallow copy when no sort field is set,
otherwise a non-mutating stable sort by the comparator. -/
def sort (env : DateEnv) (items : List Item) (sortField direction : String) :
    List Item :=
  if sortField = "" then items
  else
    let dir : Int := if direction = "desc" then -1 else 1
    stableSort (fun a b => sortCmp env sortField dir a b ≤ 0) items

/-- The body of `computeAlerts`'s `forEach`: bump each counter whose
condition the item meets. -/
def alertStep (env : DateEnv) (acc : Alerts) (i : Item) : Alerts :=
  { expSoon := acc.expSoon +
      (if (DateUtils.classifyExpiry env i.expiryDate).code = "warning"
       then 1 else 0)
    expired := acc.expired +
      (if (DateUtils.classifyExpiry env i.expiryDate).code = "expired"
       then 1 else 0)
    outOfStock :=
      acc.outOfStock + (if i.status = "Out of Stock" then 1 else 0)
    zeroQty := acc.zeroQty + (if i.quantity = JSVal.num 0 then 1 else 0) }

/-- `computeAlerts`: one pass over the items tallying expired / expiring-soon
classifications, `Out of Stock` statuses and `quantity === 0`. -/
def computeAlerts (env : DateEnv) (items : List Item) : Alerts :=
  items.foldl (alertStep env) ⟨0, 0, 0, 0⟩

end InventoryService

/-!
## A concrete date environment and concrete items, used by the witnesses
-/

/-- The local-midnight timestamp of calendar day `k` (days since the epoch),
as a `JSDate` sitting exactly at that midnight. -/
def mkDay (k : Int) : JSDate := ⟨k * msPerDay, k * msPerDay⟩

/-- A concrete date environment: "today" is calendar day 1000, and a handful
of literal date strings parse to fixed days relative to it; every other
string is unparseable. -/
def testEnv : DateEnv :=
  { today := mkDay 1000
    parse := fun s =>
      if s = "Dm10" then some (mkDay 990)
      else if s = "Dm1" then some (mkDay 999)
      else if s = "D0" then some (mkDay 1000)
      else if s = "D90" then some (mkDay 1090)
      else if s = "D91" then some (mkDay 1091)
      else if s = "D200" then some (mkDay 1200)
      else none }

/-- A concrete well-formed item. -/
def baseItem : Item :=
  { id := "itm-1"
    category := "Chemistry"
    itemName := "Glucose"
    brand := ""
    contentVolume := ""
    lotNumber := ""
    dateReceived := ""
    expiryDate := "D200"
    dateOpened := ""
    status := "Unopened"
    quantity := .num 5
    remarks := "" }

/-- The raw object of the spec's validation scenario: empty category,
itemName and expiryDate, and the raw string `'abc'` as quantity. -/
def rawQtyItem : Item :=
  { baseItem with category := "", itemName := "", expiryDate := "", quantity := JSVal.str "abc" }

/-- Item of quantity 3 for the sort scenario. -/
def qty3Item : Item := { baseItem with id := "a", quantity := JSVal.num 3 }

/-- Item of quantity 1 for the sort scenario. -/
def qty1Item : Item := { baseItem with id := "b", quantity := JSVal.num 1 }

/-- Item of quantity 2 for the sort scenario. -/
def qty2Item : Item := { baseItem with id := "c", quantity := JSVal.num 2 }

/-- Item with a parseable expiry date (200 days ahead). -/
def goodDateItem : Item := { baseItem with id := "g", expiryDate := "D200" }

/-- Item with an unparseable expiry date. -/
def badDateItem1 : Item := { baseItem with id := "u1", expiryDate := "zzz" }

/-- Item with a missing expiry date. -/
def badDateItem2 : Item := { baseItem with id := "u2", expiryDate := "" }

/-- First item of the alert scenario: expired ten days ago, zero quantity,
status `Opened`. -/
def alertItemA : Item :=
  { baseItem with itemName := "A", expiryDate := "Dm10", quantity := JSVal.num 0, status := "Opened" }

/-- Second item of the alert scenario: expires in 200 days, quantity 5,
status `Unopened`. -/
def alertItemB : Item :=
  { baseItem with itemName := "B", expiryDate := "D200", quantity := JSVal.num 5, status := "Unopened" }

/-!
## Claims
-/

/-- C1: for every date string and a fixed today, `classifyExpiry` returns
code `none` with `days` null when the date is absent or unparseable; with
the whole-day difference `daysDiff` (both dates truncated to midnight,
rounded — the source's `daysBetween`), it returns code `expired` when
`daysDiff < 0`, `warning` when `0 ≤ daysDiff ≤ 90`, `good` when
`daysDiff > 90`, and the `days` field equals `daysDiff`. -/
theorem c1_classifyExpiry_buckets (env : DateEnv) (s : String) :
    (DateUtils.parse env s = none →
      DateUtils.classifyExpiry env s = ⟨"No Expiry", "none", none⟩) ∧
    (∀ d, DateUtils.parse env s = some d →
      DateUtils.daysBetween (some env.today) (some d) =
        some (DateUtils.daysBetweenD env.today d) ∧
      (DateUtils.classifyExpiry env s).days =
        some (DateUtils.daysBetweenD env.today d) ∧
      (DateUtils.classifyExpiry env s).code =
        (if DateUtils.daysBetweenD env.today d < 0 then "expired"
         else if DateUtils.daysBetweenD env.today d ≤ 90 then "warning"
         else "good")) := by
  constructor
  · intro h
    unfold DateUtils.classifyExpiry
    rw [h]
  · intro d hd
    refine ⟨rfl, ?_, ?_⟩ <;>
    · unfold DateUtils.classifyExpiry
      rw [hd]
      by_cases h1 : DateUtils.daysBetweenD env.today d < 0
      · simp [h1]
      · by_cases h2 : DateUtils.daysBetweenD env.today d ≤ 90 <;> simp [h1, h2]

/-- Witness for C1: under the concrete environment, an unparseable string
classifies as `none`, and day differences −1, 0, 90, 91 classify as
`expired`, `warning`, `warning`, `good`. -/
theorem c1_classifyExpiry_buckets_witness :
    DateUtils.classifyExpiry testEnv "bogus" = ⟨"No Expiry", "none", none⟩ ∧
    (DateUtils.classifyExpiry testEnv "Dm1").code = "expired" ∧
    (DateUtils.classifyExpiry testEnv "D0").code = "warning" ∧
    (DateUtils.classifyExpiry testEnv "D90").code = "warning" ∧
    (DateUtils.classifyExpiry testEnv "D91").code = "good" := by
  refine ⟨(c1_classifyExpiry_buckets testEnv "bogus").1 (by decide),
    (((c1_classifyExpiry_buckets testEnv "Dm1").2 (mkDay 999)
      (by decide)).2.2).trans (by decide),
    (((c1_classifyExpiry_buckets testEnv "D0").2 (mkDay 1000)
      (by decide)).2.2).trans (by decide),
    (((c1_classifyExpiry_buckets testEnv "D90").2 (mkDay 1090)
      (by decide)).2.2).trans (by decide),
    (((c1_classifyExpiry_buckets testEnv "D91").2 (mkDay 1091)
      (by decide)).2.2).trans (by decide)⟩

/-- C2 (counterexample): `validate` applied directly to the raw object
`{category:'', itemName:'', expiryDate:'', quantity:'abc'}` returns only
three error messages and none about the quantity — not the four the claim
states: `Number.isNaN` does not coerce, so a raw string quantity never
triggers the numeric rule. -/
theorem c2_counterexample :
    InventoryService.validate rawQtyItem =
      ["Category is required", "Item Name is required",
       "Expiry Date is required"] ∧
    "Quantity must be a number" ∉ InventoryService.validate rawQtyItem := by
  decide

/-- C2 (amended): on the raw object the result is exactly the three presence
errors with no quantity message; in general each of the five messages is
present exactly when its rule is violated, and the returned list always
lists the violated rules in the order category, itemName, expiryDate,
quantity-numeric, quantity-non-negative. -/
theorem c2_validate_messages :
    InventoryService.validate rawQtyItem =
      ["Category is required", "Item Name is required",
       "Expiry Date is required"] ∧
    ∀ i : Item,
      ("Category is required" ∈ InventoryService.validate i ↔
        i.category = "") ∧
      ("Item Name is required" ∈ InventoryService.validate i ↔
        i.itemName = "") ∧
      ("Expiry Date is required" ∈ InventoryService.validate i ↔
        i.expiryDate = "") ∧
      ("Quantity must be a number" ∈ InventoryService.validate i ↔
        (nullish i.quantity = true ∨ i.quantity = JSVal.nan)) ∧
      ("Quantity cannot be negative" ∈ InventoryService.validate i ↔
        jsLtZero i.quantity = true) ∧
      List.Sublist (InventoryService.validate i)
        ["Category is required", "Item Name is required",
         "Expiry Date is required", "Quantity must be a number",
         "Quantity cannot be negative"] := by
  refine ⟨by decide, fun i => ?_⟩
  have hsub : ∀ (c : Prop) (inst : Decidable c) (m : String),
      List.Sublist (if c then [m] else []) [m] := by
    intro c inst m
    split
    · exact List.Sublist.refl _
    · exact List.nil_sublist _
  refine ⟨?_, ?_, ?_, ?_, ?_, ?_⟩
  · unfold InventoryService.validate
    split_ifs <;> simp_all
  · unfold InventoryService.validate
    split_ifs <;> simp_all
  · unfold InventoryService.validate
    split_ifs <;> simp_all
  · unfold InventoryService.validate
    split_ifs <;> simp_all
  · unfold InventoryService.validate
    split_ifs <;> simp_all
  · exact ((((hsub _ _ _).append (hsub _ _ _)).append
      (hsub _ _ _)).append (hsub _ _ _)).append (hsub _ _ _)

/-- The classification code each recognized expiry-criterion value selects:
`'3months'` selects the `warning` bucket, `'expired'` and `'good'` select
their namesake buckets. -/
def expiryBucketCode (e : String) : String :=
  if e = "3months" then "warning" else e

/-- With every criterion unset, the filter predicate accepts every item. -/
theorem filterPred_unset (env : DateEnv) (i : Item) :
    InventoryService.filterPred env Filters.unset i = true := by
  simp [InventoryService.filterPred, Filters.unset]

/-- With every criterion unset, `filter` returns the input list. -/
theorem filter_unset (env : DateEnv) (items : List Item) :
    InventoryService.filter env items Filters.unset = items :=
  List.filter_eq_self.mpr (fun i _ => filterPred_unset env i)

/-- C3 (counterexample): the claim fails for the Classifier code
`'warning'`: the filter's warning branch is keyed on the criterion value
`'3months'`, so a criteria object whose expiry criterion is the code
`'warning'` imposes no constraint — here it keeps an item classified
`good`. -/
theorem c3_counterexample :
    (DateUtils.classifyExpiry testEnv baseItem.expiryDate).code = "good" ∧
    InventoryService.filter testEnv [baseItem]
      { Filters.unset with expiry := "warning" } = [baseItem] := by
  decide

/-- C3 (amended): the recognized expiry-criterion values are `'expired'`,
`'3months'` and `'good'`; with one of them set (and the other criteria
unset) `filter` keeps exactly the items whose classification code is the
corresponding bucket (`'3months'` selecting code `warning`), and under any
other active criteria a kept item still has the corresponding code. -/
theorem c3_expiry_filter (env : DateEnv) (items : List Item) (e : String)
    (he : e = "expired" ∨ e = "3months" ∨ e = "good") :
    InventoryService.filter env items { Filters.unset with expiry := e } =
      items.filter (fun i =>
        (DateUtils.classifyExpiry env i.expiryDate).code =
          expiryBucketCode e) ∧
    ∀ f i, InventoryService.filterPred env f i = true → f.expiry = e →
      (DateUtils.classifyExpiry env i.expiryDate).code =
        expiryBucketCode e := by
  constructor
  · apply List.filter_congr
    intro i _
    rcases he with rfl | rfl | rfl <;>
      simp [InventoryService.filterPred, Filters.unset, expiryBucketCode]
  · intro f i hp hf
    unfold InventoryService.filterPred at hp
    rcases he with rfl | rfl | rfl <;> split_ifs at hp <;>
      simp_all [expiryBucketCode]

/-- Witness for C3: with the `'expired'` criterion active, the filter keeps
the expired item and drops the good one. -/
theorem c3_expiry_filter_witness :
    InventoryService.filter testEnv [alertItemA, baseItem]
      { Filters.unset with expiry := "expired" } = [alertItemA] := by
  have h := (c3_expiry_filter testEnv [alertItemA, baseItem] "expired"
    (Or.inl rfl)).1
  rw [h]
  decide

/-- The filter predicate holds exactly when every active criterion is
satisfied. -/
theorem filterPred_iff (env : DateEnv) (f : Filters) (i : Item) :
    InventoryService.filterPred env f i = true ↔
      ((f.category = "" ∨ i.category = f.category) ∧
       (f.status = "" ∨ i.status = f.status) ∧
       (f.search = "" ∨
         strIncludes (strLower (InventoryService.haystack i))
           (strLower f.search) = true) ∧
       (f.expiry = "expired" →
         (DateUtils.classifyExpiry env i.expiryDate).code = "expired") ∧
       (f.expiry = "3months" →
         (DateUtils.classifyExpiry env i.expiryDate).code = "warning") ∧
       (f.expiry = "good" →
         (DateUtils.classifyExpiry env i.expiryDate).code = "good") ∧
       (f.lowStock = "low" → jsLe i.quantity 2 = true)) := by
  unfold InventoryService.filterPred
  by_cases h1 : f.category ≠ "" ∧ i.category ≠ f.category
  · rw [if_pos h1]
    exact iff_of_false (by simp) (fun hP => hP.1.elim h1.1 h1.2)
  rw [if_neg h1]
  by_cases h2 : f.status ≠ "" ∧ i.status ≠ f.status
  · rw [if_pos h2]
    exact iff_of_false (by simp) (fun hP => hP.2.1.elim h2.1 h2.2)
  rw [if_neg h2]
  by_cases h3 : f.search ≠ "" ∧
      ¬ strIncludes (strLower (InventoryService.haystack i))
        (strLower f.search) = true
  · rw [if_pos h3]
    exact iff_of_false (by simp) (fun hP => hP.2.2.1.elim h3.1 h3.2)
  rw [if_neg h3]
  by_cases h4 : f.expiry = "expired" ∧
      (DateUtils.classifyExpiry env i.expiryDate).code ≠ "expired"
  · rw [if_pos h4]
    exact iff_of_false (by simp) (fun hP => h4.2 (hP.2.2.2.1 h4.1))
  rw [if_neg h4]
  by_cases h5 : f.expiry = "3months" ∧
      (DateUtils.classifyExpiry env i.expiryDate).code ≠ "warning"
  · rw [if_pos h5]
    exact iff_of_false (by simp) (fun hP => h5.2 (hP.2.2.2.2.1 h5.1))
  rw [if_neg h5]
  by_cases h6 : f.expiry = "good" ∧
      (DateUtils.classifyExpiry env i.expiryDate).code ≠ "good"
  · rw [if_pos h6]
    exact iff_of_false (by simp) (fun hP => h6.2 (hP.2.2.2.2.2.1 h6.1))
  rw [if_neg h6]
  by_cases h7 : f.lowStock = "low" ∧ ¬ jsLe i.quantity 2 = true
  · rw [if_pos h7]
    exact iff_of_false (by simp) (fun hP => h7.2 (hP.2.2.2.2.2.2 h7.1))
  rw [if_neg h7]
  push_neg at h1 h2 h3 h4 h5 h6 h7
  exact iff_of_true rfl
    ⟨or_iff_not_imp_left.mpr h1, or_iff_not_imp_left.mpr h2,
     or_iff_not_imp_left.mpr h3, h4, h5, h6, h7⟩

/-- C4: an item appears in `filter`'s output iff it is an input item and
satisfies every active criterion — exact category match, exact status match,
case-insensitive substring match of the search term against the space-joined
non-empty text fields, the expiry bucket, and the low-stock predicate
`quantity <= 2`; unset criteria impose no constraint, and with every
criterion unset the filter returns the input unchanged. -/
theorem c4_filter_conjunction (env : DateEnv) (f : Filters)
    (items : List Item) :
    (∀ i, i ∈ InventoryService.filter env items f ↔
      (i ∈ items ∧
       (f.category = "" ∨ i.category = f.category) ∧
       (f.status = "" ∨ i.status = f.status) ∧
       (f.search = "" ∨
         strIncludes (strLower (InventoryService.haystack i))
           (strLower f.search) = true) ∧
       (f.expiry = "expired" →
         (DateUtils.classifyExpiry env i.expiryDate).code = "expired") ∧
       (f.expiry = "3months" →
         (DateUtils.classifyExpiry env i.expiryDate).code = "warning") ∧
       (f.expiry = "good" →
         (DateUtils.classifyExpiry env i.expiryDate).code = "good") ∧
       (f.lowStock = "low" → jsLe i.quantity 2 = true))) ∧
    InventoryService.filter env items Filters.unset = items := by
  refine ⟨fun i => ?_, filter_unset env items⟩
  simp only [InventoryService.filter, List.mem_filter]
  rw [filterPred_iff]

/-- C5: filtering with no active criteria and then sorting with an unset
sort field returns the input list itself, element for element; in
particular `sort` with an unset field is an order-preserving copy.  (The
embedding is pure, so the source's non-mutation of its input — both
functions operate on a fresh `slice()` — has no further content here.) -/
theorem c5_filter_sort_identity (env : DateEnv) (items : List Item)
    (dir : String) :
    InventoryService.sort env
      (InventoryService.filter env items Filters.unset) "" dir = items ∧
    InventoryService.sort env items "" dir = items := by
  constructor <;> simp [InventoryService.sort, filter_unset]

/-- C6: any sort field whose name contains `date` is compared through the
Classifier's parser with missing/unparseable dates keyed at the epoch
(timestamp 0); concretely, sorting by an unparseable-date field in ascending
order places those items first (stably), and sorting by quantity compares
numerically, so descending order on quantities `[3,1,2]` yields `[3,2,1]`. -/
theorem c6_sort_dates_and_quantity :
    (∀ (env : DateEnv) (f : String) (dir : Int) (a b : Item),
      strIncludes (strLower f) "date" = true →
      InventoryService.sortCmp env f dir a b =
        (if InventoryService.dateKey env (InventoryService.getField a f) =
            InventoryService.dateKey env (InventoryService.getField b f)
         then 0
         else if InventoryService.dateKey env
              (InventoryService.getField a f) >
            InventoryService.dateKey env (InventoryService.getField b f)
         then dir else -dir)) ∧
    (∀ (env : DateEnv) (s : String), DateUtils.parse env s = none →
      InventoryService.dateKey env (JSVal.str s) = 0) ∧
    InventoryService.sort testEnv [qty3Item, qty1Item, qty2Item]
      "quantity" "desc" = [qty3Item, qty2Item, qty1Item] ∧
    InventoryService.sort testEnv
      [goodDateItem, badDateItem1, badDateItem2] "expiryDate" "asc" =
      [badDateItem1, badDateItem2, goodDateItem] := by
  refine ⟨fun env f dir a b h => ?_, fun env s h => ?_, by decide, by decide⟩
  · have hq : f ≠ "quantity" := by
      rintro rfl
      exact absurd h (by decide)
    simp only [InventoryService.sortCmp, hq, h, if_false, if_true,
      ite_false, ite_true]
  · simp [InventoryService.dateKey, h]

/-- Witness for C6: the date comparator at a concrete unparseable/parseable
pair of items orders the unparseable one first, and an unparseable string
keys at 0. -/
theorem c6_sort_dates_and_quantity_witness :
    InventoryService.sortCmp testEnv "expiryDate" 1 badDateItem1
      goodDateItem = -1 ∧
    InventoryService.dateKey testEnv (JSVal.str "zzz") = 0 := by
  refine ⟨(c6_sort_dates_and_quantity.1 testEnv "expiryDate" 1 badDateItem1
    goodDateItem (by decide)).trans (by decide),
    c6_sort_dates_and_quantity.2.1 testEnv "zzz" (by decide)⟩

/-- Folding the alert step from any accumulator adds the four tallies. -/
theorem foldl_alertStep (env : DateEnv) (items : List Item) (acc : Alerts) :
    items.foldl (InventoryService.alertStep env) acc =
      ⟨acc.expSoon + items.countP
        (fun i => (DateUtils.classifyExpiry env i.expiryDate).code =
          "warning"),
       acc.expired + items.countP
        (fun i => (DateUtils.classifyExpiry env i.expiryDate).code =
          "expired"),
       acc.outOfStock + items.countP (fun i => i.status = "Out of Stock"),
       acc.zeroQty + items.countP (fun i => i.quantity = JSVal.num 0)⟩ := by
  induction items generalizing acc with
  | nil => simp
  | cons x t ih =>
    rw [List.foldl_cons, ih]
    simp only [InventoryService.alertStep, List.countP_cons,
      decide_eq_true_eq, Alerts.mk.injEq]
    refine ⟨by omega, by omega, by omega, by omega⟩

/-- C7: `computeAlerts` returns exactly the counts of items classified
`warning` (expSoon), classified `expired` (expired), with status exactly
`Out of Stock`, and with `quantity === 0` (independently of status, so one
item may increment several counters); on the spec's two-item scenario it
returns `{expSoon:0, expired:1, outOfStock:0, zeroQty:1}`. -/
theorem c7_computeAlerts :
    (∀ (env : DateEnv) (items : List Item),
      InventoryService.computeAlerts env items =
        ⟨items.countP
          (fun i => (DateUtils.classifyExpiry env i.expiryDate).code =
            "warning"),
         items.countP
          (fun i => (DateUtils.classifyExpiry env i.expiryDate).code =
            "expired"),
         items.countP (fun i => i.status = "Out of Stock"),
         items.countP (fun i => i.quantity = JSVal.num 0)⟩) ∧
    InventoryService.computeAlerts testEnv [alertItemA, alertItemB] =
      ⟨0, 1, 0, 1⟩ := by
  refine ⟨fun env items => ?_, by decide⟩
  unfold InventoryService.computeAlerts
  rw [foldl_alertStep]
  simp

/-- Reading back a present optional string. -/
theorem orEmpty_some (s : String) : orEmpty (some s) = s := rfl

/-- Storing a text field as `null`-when-empty and reading it back with an
empty-string default is the identity. -/
theorem orEmpty_orNull (s : String) : orEmpty (orNull s) = s := by
  unfold orNull
  split_ifs with h
  · simp [orEmpty, h]
  · rfl

/-- Re-defaulting an already-defaulted string changes nothing. -/
theorem strOr_strOr (s d : String) : strOr (strOr s d) d = strOr s d := by
  unfold strOr
  split_ifs <;> simp_all

/-- `Number(q ?? 0)` always yields a value of number type. -/
theorem numOrZero_numberType (v : JSVal) :
    isNumberType (numOrZero v) = true := by
  unfold numOrZero jsNumber
  rcases jsToNumOpt (if nullish v then JSVal.num 0 else v) with _ | n <;> rfl

/-- On values already of number type, `Number(q ?? 0)` is the identity. -/
theorem numOrZero_of_numberType (v : JSVal) (h : isNumberType v = true) :
    numOrZero v = v := by
  cases v with
  | num n => rfl
  | nan => rfl
  | str s => simp [isNumberType] at h
  | null => simp [isNumberType] at h
  | undefined => simp [isNumberType] at h

/-- The quantity coercion is idempotent. -/
theorem numOrZero_idem (v : JSVal) :
    numOrZero (numOrZero v) = numOrZero v :=
  numOrZero_of_numberType _ (numOrZero_numberType v)

/-- C8: mapping an Item to a backend row and back is the identity on every
text field (non-empty strings survive unchanged and empty strings come back
as `""`, not null, because the forward map stores them as null and the
backward map defaults null to `""`); `status` comes back defaulted to
`'Unopened'` when empty and `quantity` comes back as `Number(q ?? 0)`; and
in the forward direction every empty text field is stored as `null` except
`status` and `quantity`, which always receive the concrete default
`'Unopened'` resp. a value of number type. -/
theorem c8_roundtrip (item : Item) :
    InventoryRepository.mapRowToItem (InventoryRepository.mapItemToRow item) =
      { item with status := strOr item.status "Unopened", quantity := numOrZero item.quantity } ∧
    (InventoryRepository.mapItemToRow item).category =
      (if item.category = "" then none else some item.category) ∧
    (InventoryRepository.mapItemToRow item).brand =
      (if item.brand = "" then none else some item.brand) ∧
    (InventoryRepository.mapItemToRow item).content_volume =
      (if item.contentVolume = "" then none else some item.contentVolume) ∧
    (InventoryRepository.mapItemToRow item).lot_number =
      (if item.lotNumber = "" then none else some item.lotNumber) ∧
    (InventoryRepository.mapItemToRow item).date_received =
      (if item.dateReceived = "" then none else some item.dateReceived) ∧
    (InventoryRepository.mapItemToRow item).expiry_date =
      (if item.expiryDate = "" then none else some item.expiryDate) ∧
    (InventoryRepository.mapItemToRow item).date_opened =
      (if item.dateOpened = "" then none else some item.dateOpened) ∧
    (InventoryRepository.mapItemToRow item).remarks =
      (if item.remarks = "" then none else some item.remarks) ∧
    (InventoryRepository.mapItemToRow item).status =
      some (strOr item.status "Unopened") ∧
    isNumberType (InventoryRepository.mapItemToRow item).quantity = true := by
  refine ⟨?_, rfl, rfl, rfl, rfl, rfl, rfl, rfl, rfl, rfl,
    numOrZero_numberType item.quantity⟩
  unfold InventoryRepository.mapRowToItem InventoryRepository.mapItemToRow
  simp only [orEmpty_orNull, optOr, orEmpty_some, strOr_strOr, numOrZero_idem]

/-- C9: `upsert` and `remove` always hand back exactly what `load()` returns
on the post-call state of the store; when the write/delete errors the store
is unchanged; and a failing `load` yields the empty collection instead of
raising. -/
theorem c9_repo_returns_load (b : InventoryRepository.Backend) (item : Item)
    (id : String) :
    (InventoryRepository.upsert b item).1 =
      InventoryRepository.load (InventoryRepository.upsert b item).2 ∧
    (InventoryRepository.remove b id).1 =
      InventoryRepository.load (InventoryRepository.remove b id).2 ∧
    (b.upsertError = true → (InventoryRepository.upsert b item).2 = b) ∧
    (b.deleteError = true → (InventoryRepository.remove b id).2 = b) ∧
    (b.loadError = true → InventoryRepository.load b = []) := by
  refine ⟨?_, ?_, fun h => ?_, fun h => ?_, fun h => ?_⟩
  · unfold InventoryRepository.upsert
    by_cases hc : b.clientMissing = true <;>
      simp [hc, InventoryRepository.load]
  · unfold InventoryRepository.remove
    by_cases hc : b.clientMissing = true <;>
      simp [hc, InventoryRepository.load]
  · unfold InventoryRepository.upsert
    by_cases hc : b.clientMissing = true <;> simp [hc, h]
  · unfold InventoryRepository.remove
    by_cases hc : b.clientMissing = true <;> simp [hc, h]
  · unfold InventoryRepository.load
    by_cases hc : b.clientMissing = true <;> simp [hc, h]

/-- A concrete backend on which every operation fails. -/
def bTest : InventoryRepository.Backend :=
  { clientMissing := false
    loadError := true
    upsertError := true
    deleteError := true
    rows := [InventoryRepository.mapItemToRow baseItem] }

/-- Witness for C9: on the failing backend, upsert leaves the store
unchanged and still returns `load()` of it, remove likewise, and `load`
itself returns the empty collection. -/
theorem c9_repo_returns_load_witness :
    (InventoryRepository.upsert bTest baseItem).1 =
      InventoryRepository.load (InventoryRepository.upsert bTest baseItem).2 ∧
    (InventoryRepository.upsert bTest baseItem).2 = bTest ∧
    (InventoryRepository.remove bTest "itm-1").2 = bTest ∧
    InventoryRepository.load bTest = [] := by
  obtain ⟨h1, h2, h3, h4, h5⟩ :=
    c9_repo_returns_load bTest baseItem "itm-1"
  exact ⟨h1, h3 rfl, h4 rfl, h5 rfl⟩

/-- A concrete well-formed payload (no id, no status, null quantity). -/
def basePayload : Payload :=
  { id := ""
    category := "Chemistry"
    itemName := "Glucose"
    brand := ""
    contentVolume := ""
    lotNumber := ""
    dateReceived := ""
    expiryDate := "D200"
    dateOpened := ""
    status := ""
    quantity := JSVal.null
    remarks := "" }

/-- C10: `createItem` always stores `Number(payload.quantity ?? 0)` as the
quantity — `0` when the payload quantity is absent, `NaN` (still of number
type) when it is a non-numeric string — so `validate` flags the numeric rule
on items built by `createItem` from bad input, while the same raw string
passed directly as an item's quantity is not flagged by that rule. -/
theorem c10_createItem_quantity (p : Payload) (freshId s : String)
    (hs : jsStrToNum s = none) :
    (InventoryService.createItem freshId p).quantity = numOrZero p.quantity ∧
    (InventoryService.createItem freshId
      { p with quantity := JSVal.undefined }).quantity = JSVal.num 0 ∧
    (InventoryService.createItem freshId
      { p with quantity := JSVal.str s }).quantity = JSVal.nan ∧
    "Quantity must be a number" ∈ InventoryService.validate
      (InventoryService.createItem freshId
        { p with quantity := JSVal.str s }) ∧
    ∀ i : Item, i.quantity = JSVal.str s →
      "Quantity must be a number" ∉ InventoryService.validate i := by
  have h3 : (InventoryService.createItem freshId
      { p with quantity := JSVal.str s }).quantity = JSVal.nan := by
    simp [InventoryService.createItem, numOrZero, jsNumber, nullish,
      jsToNumOpt, hs]
  refine ⟨rfl, rfl, h3, ?_, fun i hi => ?_⟩
  · simp [InventoryService.validate, h3]
  · simp [InventoryService.validate, hi, nullish, jsLtZero, jsToNumOpt, hs]

/-- Witness for C10: at the non-numeric string `'abc'`, `createItem`
produces a `NaN` quantity that `validate` flags, while the raw object with
quantity `'abc'` is not flagged. -/
theorem c10_createItem_quantity_witness :
    (InventoryService.createItem "f-1"
      { basePayload with quantity := JSVal.str "abc" }).quantity =
      JSVal.nan ∧
    "Quantity must be a number" ∈ InventoryService.validate
      (InventoryService.createItem "f-1"
        { basePayload with quantity := JSVal.str "abc" }) ∧
    "Quantity must be a number" ∉ InventoryService.validate rawQtyItem := by
  obtain ⟨h1, h2, h3, h4, h5⟩ :=
    c10_createItem_quantity basePayload "f-1" "abc" (by decide)
  exact ⟨h3, h4, h5 rawQtyItem rfl⟩

end NorthMed
